import Mathlib

/-!
Verification development for the docscope-mcp Python documentation analyzer.

The definitions below are a shallow embedding of
`src/docscope_mcp/analyzers/python/analyzer.py` together with the
configuration data of `src/docscope_mcp/models/quality.py` and
`src/docscope_mcp/models/config.py`.  Python strings are modelled as
`List Char`; Python floats produced by the score division are modelled as
`Rat` (all scores are small fractions k/7 or k/8 compared against 0.3, 0.6
and 0.8, far from any rounding boundary, so the rational model decides
every comparison exactly as the float code does).
-/

set_option maxRecDepth 4000

namespace DocScope

abbrev Str := List Char

/-- Python whitespace set used by str.strip and by the regex class \s. -/
def isPyWs (c : Char) : Bool :=
  c == ' ' || c == '\t' || c == '\n' || c == '\r' || c == '\x0b' || c == '\x0c'

/-- Model of Python str.strip with no arguments. -/
def pyStrip (s : Str) : Str :=
  ((s.dropWhile isPyWs).reverse.dropWhile isPyWs).reverse

/-- Model of Python str.split with separator a single newline. -/
def splitOnNl : Str → List Str
  | [] => [[]]
  | c :: rest =>
    if c == '\n' then [] :: splitOnNl rest
    else
      match splitOnNl rest with
      | [] => [[c]]
      | l :: ls => (c :: l) :: ls

/-- Model of the Python substring test, needle in hay. -/
def strContains (needle : Str) : Str → Bool
  | [] => needle.isEmpty
  | c :: rest => needle.isPrefixOf (c :: rest) || strContains needle rest

/-- Model of docstring.count applied to a double newline:
non-overlapping occurrences scanned from the left. -/
def countNlNl : Str → Nat
  | '\n' :: '\n' :: rest => countNlNl rest + 1
  | _ :: rest => countNlNl rest
  | [] => 0

/-- Model of Python str.lower, restricted to the ASCII inputs this
development evaluates it on. -/
def toLowerStr (s : Str) : Str := s.map Char.toLower

def isUpperAZ (c : Char) : Bool := decide (65 ≤ c.toNat) && decide (c.toNat ≤ 90)

/-- Helper for the brief-description regex: true iff the list is a run of
characters other than a period followed by one final period. -/
def endsWithDotNoInternal : Str → Bool
  | [] => false
  | ['.'] => true
  | [_] => false
  | c :: rest => !(c == '.') && endsWithDotNoInternal rest

/-- Model of re.search with the module pattern REGEX_BRIEF_DESCRIPTION,
anchored at both ends: optional leading whitespace, one capital letter,
a run of non-period characters, one final period. -/
def briefRegexMatch : Str → Bool
  | [] => false
  | c :: rest =>
    if isPyWs c then briefRegexMatch rest
    else if isUpperAZ c then endsWithDotNoInternal rest
    else false

/-- Embedding of QualityThresholds from models/quality.py with its
declared defaults. -/
structure QualityThresholds where
  max_brief_lines : Nat := 1
  max_brief_lines_extended : Nat := 3
  min_brief_chars : Nat := 100
  min_detailed_lines_standard : Nat := 5
  min_detailed_lines_test : Nat := 10
  min_detailed_chars_standard : Nat := 200
  min_detailed_chars_test : Nat := 300
  min_comprehensive_chars_standard : Nat := 300
  min_comprehensive_chars_standard_terse : Nat := 150
  min_comprehensive_chars_test : Nat := 500
  min_comprehensive_chars_test_terse : Nat := 200
  complexity_medium : Nat := 5
  complexity_high : Nat := 10
  max_param_priority_contribution : Nat := 3
  min_bullet_points : Nat := 3
  min_paragraph_breaks : Nat := 2
deriving DecidableEq

/-- Embedding of the QUALITY_SCORE_THRESHOLDS dict from models/quality.py. -/
structure QualityScoreThresholds where
  excellent : Rat := 4/5
  good : Rat := 3/5
  basic : Rat := 3/10
deriving DecidableEq

/-- Embedding of AnalysisConfig from models/config.py with its defaults. -/
structure AnalysisConfig where
  quality_thresholds : QualityScoreThresholds := {}
  thresholds : QualityThresholds := {}
  max_code_size : Nat := 5 * 1024 * 1024
  max_results_display : Nat := 10
  min_docstring_length : Nat := 10
  max_ast_nodes : Nat := 50000
  max_ast_depth : Nat := 100
  ast_parse_timeout : Nat := 5
  max_file_path_length : Nat := 4096
  docstring_preview_length : Nat := 300
  max_missing_elements_display : Nat := 3
deriving DecidableEq

/-- Embedding of the module level DEFAULT_CONFIG instance. -/
def DEFAULT_CONFIG : AnalysisConfig := {}

/-- Embedding of ArgInfo from models/analysis.py: one argument of a
discovered function. -/
structure ArgInfo where
  name : Str
  typeAnn : Option Str := none
  default : Option Str := none
deriving DecidableEq

/-- Embedding of FunctionInfo from models/analysis.py. -/
structure FunctionInfo where
  name : Str
  line : Nat
  complexity : Nat
  is_private : Bool
  is_test : Bool
  args : List ArgInfo
  returns : Option Str
  decorators : List Str := []
  current_docstring : Str := []
deriving DecidableEq

inductive QualityLevel where
  | poor
  | basic
  | good
  | excellent
deriving DecidableEq

/-- Embedding of the QualityAssessment TypedDict.  The indicators dict is
modelled as an association list in Python dict insertion order. -/
structure QualityAssessment where
  quality : QualityLevel
  score : Rat
  missing : List String
  needs_improvement : Bool
  indicators : List (String × Bool)
deriving DecidableEq

/-- Embedding of PythonAnalyzer._is_test_function. -/
def is_test_function (func_name : Str) : Bool :=
  ("test_").toList.isPrefixOf func_name

/-- Embedding of PythonAnalyzer._count_non_empty_lines. -/
def count_non_empty_lines (docstring : Str) : Nat :=
  ((splitOnNl (pyStrip docstring)).filter (fun line => !(pyStrip line).isEmpty)).length

def bulletMarkers : List Str :=
  [("•").toList, ("-").toList, ("*").toList, ("1.").toList, ("2.").toList, ("3.").toList]

def techMarkers : List Str :=
  [(":").toList, ("→").toList, ("=").toList, ("O(").toList, ("Θ(").toList, ("Ω(").toList]

/-- Embedding of the terse notation detector of the analyzer (the private
method whose name starts with an underscore and ends in the word for a
system of symbols). -/
def detect_terse (cfg : AnalysisConfig) (docstring : Str) : Bool :=
  let lines := splitOnNl (pyStrip docstring)
  let has_bullet_list :=
    decide (cfg.thresholds.min_bullet_points ≤
      (lines.filter (fun line => bulletMarkers.any (fun m => m.isPrefixOf (pyStrip line)))).length)
  let has_technical_specs := techMarkers.any (fun k => strContains k docstring)
  let has_structured_sections :=
    decide (cfg.thresholds.min_paragraph_breaks ≤ countNlNl docstring)
  has_bullet_list || (has_technical_specs && has_structured_sections)

/-- Embedding of PythonAnalyzer._is_brief_one_liner. -/
def is_brief_one_liner (cfg : AnalysisConfig) (docstring : Str)
    (is_terse_complete : Bool) : Bool :=
  let non_empty_count := count_non_empty_lines docstring
  (decide (non_empty_count ≤ cfg.thresholds.max_brief_lines) ||
      (decide (non_empty_count ≤ cfg.thresholds.max_brief_lines_extended) &&
        decide (docstring.length < cfg.thresholds.min_brief_chars)))
    && !is_terse_complete

/-- Embedding of PythonAnalyzer._check_brief_and_detailed. -/
def check_brief_and_detailed (cfg : AnalysisConfig) (docstring : Str)
    (lines : List Str) (is_brief : Bool) (is_terse_complete : Bool)
    (is_test_fn : Bool) : List (String × Bool) :=
  let non_empty_count := count_non_empty_lines docstring
  let t := cfg.thresholds
  let min_lines := if is_test_fn then t.min_detailed_lines_test else t.min_detailed_lines_standard
  let min_chars := if is_test_fn then t.min_detailed_chars_test else t.min_detailed_chars_standard
  [(("brief_description"), briefRegexMatch (pyStrip (lines.headD [])) && !is_brief),
   (("detailed_description"),
     (decide (min_lines < non_empty_count) && decide (min_chars < docstring.length))
       || is_terse_complete)]

/-- Embedding of PythonAnalyzer._check_documentation_sections. -/
def check_documentation_sections (docstring : Str) : List (String × Bool) :=
  [(("args_section"),
     strContains (("Args:").toList) docstring || strContains (("Parameters:").toList) docstring),
   (("returns_section"),
     strContains (("Returns:").toList) docstring || strContains (("Return:").toList) docstring),
   (("raises_section"),
     strContains (("Raises:").toList) docstring || strContains (("Raise:").toList) docstring),
   (("example_section"),
     strContains (("Example:").toList) docstring || strContains (("Examples:").toList) docstring)]

def businessKeywords : List Str :=
  [("business").toList, ("purpose").toList, ("context").toList, ("responsible").toList,
   ("protocol").toList, ("interface").toList, ("implements").toList, ("provides").toList]

/-- Embedding of PythonAnalyzer._check_context_and_details. -/
def check_context_and_details (cfg : AnalysisConfig) (docstring : Str)
    (is_terse_complete : Bool) : List (String × Bool) :=
  let t := cfg.thresholds
  [(("business_context"),
     businessKeywords.any (fun k => strContains k (toLowerStr docstring))),
   (("implementation_details"),
     decide (t.min_comprehensive_chars_standard < docstring.length) ||
       (is_terse_complete &&
         decide (t.min_comprehensive_chars_standard_terse < docstring.length)))]

def arrangementKeywords : List Str :=
  [("Arrangement").toList, ("Setup").toList, ("Given").toList, ("ARRANGE").toList,
   ("Arrange:").toList, ("Setup:").toList, ("Given:").toList]

def actionKeywords : List Str :=
  [("Action").toList, ("When").toList, ("ACT").toList, ("execution").toList,
   ("Act:").toList, ("When:").toList, ("Execute:").toList]

def assertionKeywords : List Str :=
  [("Assertion").toList, ("Then").toList, ("ASSERT").toList, ("validates").toList,
   ("verifies").toList, ("Assert:").toList, ("Then:").toList, ("Verify:").toList]

def principleKeywords : List Str :=
  [("Testing Principle:").toList, ("Testing Principles:").toList,
   ("Testing Principle").toList, ("Testing Principles").toList,
   ("Principle:").toList, ("Principles:").toList, ("Test Rationale:").toList,
   ("Validates the").toList, ("Ensures the").toList, ("Ensures that").toList]

/-- Embedding of PythonAnalyzer._check_test_specific_indicators. -/
def check_test_specific_indicators (cfg : AnalysisConfig) (docstring : Str)
    (is_brief : Bool) (is_terse_complete : Bool) : List (String × Bool) :=
  let t := cfg.thresholds
  let has_arrangement := arrangementKeywords.any (fun k => strContains k docstring)
  let has_action := actionKeywords.any (fun k => strContains k docstring)
  let has_assertion := assertionKeywords.any (fun k => strContains k docstring)
  let has_testing_principles := principleKeywords.any (fun k => strContains k docstring)
  [(("arrangement_steps"), has_arrangement && !is_brief),
   (("action_description"), has_action && !is_brief),
   (("assertion_strategy"), has_assertion && !is_brief),
   (("testing_principles"), has_testing_principles),
   (("comprehensive_content"),
     decide (t.min_comprehensive_chars_test < docstring.length) ||
       (is_terse_complete &&
         decide (t.min_comprehensive_chars_test_terse < docstring.length)))]

/-- Embedding of PythonAnalyzer._calculate_quality_indicators.  In the
source the func_info parameter is unused (named with a leading
underscore); it is kept here for signature fidelity. -/
def calculate_quality_indicators (cfg : AnalysisConfig) (docstring : Str)
    (_func_info : FunctionInfo) (is_test_fn : Bool) (is_terse_complete : Bool)
    (is_brief : Bool) : List (String × Bool) :=
  let lines := splitOnNl (pyStrip docstring)
  check_brief_and_detailed cfg docstring lines is_brief is_terse_complete is_test_fn
    ++ (if is_test_fn then [] else check_documentation_sections docstring)
    ++ (if is_test_fn then check_test_specific_indicators cfg docstring is_brief is_terse_complete
        else check_context_and_details cfg docstring is_terse_complete)

/-- Python dict lookup d.get(key) on the association list model. -/
def lookupInd (key : String) (inds : List (String × Bool)) : Option Bool :=
  (inds.find? (fun p => p.1 == key)).map (fun p => p.2)

/-- Python dict assignment d[key] = v on the association list model:
overwrite in place, append at the end when the key is absent. -/
def setInd (key : String) (v : Bool) : List (String × Bool) → List (String × Bool)
  | [] => [(key, v)]
  | p :: rest => if p.1 == key then (p.1, v) :: rest else p :: setInd key v rest

/-- Python truthiness of the returns field combined with the comparison
against the literal string None, as written in the analyzer. -/
def truthyRet : Option Str → Bool
  | none => false
  | some r => !r.isEmpty && !(r == ("None").toList)

/-- Embedding of PythonAnalyzer._validate_signature_coverage. -/
def validate_signature_coverage (inds : List (String × Bool))
    (func_info : FunctionInfo) : List (String × Bool) :=
  let has_params :=
    decide (0 < (func_info.args.filter (fun a => !(a.name == ("self").toList))).length)
  let inds1 :=
    if has_params && !((lookupInd ("args_section") inds).getD true) then
      setInd ("args_section") false inds
    else inds
  let has_return := truthyRet func_info.returns
  if has_return && !((lookupInd ("returns_section") inds1).getD true) then
    setInd ("returns_section") false inds1
  else inds1

/-- Python key.replace applied to indicator names: every underscore
becomes a space. -/
def underscoreToSpace (s : String) : String :=
  ⟨s.data.map (fun c => if c == '_' then ' ' else c)⟩

/-- Embedding of PythonAnalyzer.assess_docstring_quality. -/
def assess_docstring_quality (cfg : AnalysisConfig) (docstring : Str)
    (func_name : Str) (func_info : FunctionInfo) : QualityAssessment :=
  if docstring = [] ∨ (pyStrip docstring).length < cfg.min_docstring_length then
    { quality := QualityLevel.poor, score := 0, missing := [("docstring")],
      needs_improvement := true, indicators := [] }
  else
    let is_test := is_test_function func_name
    let is_terse_complete := detect_terse cfg docstring
    let is_brief := is_brief_one_liner cfg docstring is_terse_complete
    let inds0 := calculate_quality_indicators cfg docstring func_info is_test is_terse_complete is_brief
    let quality_indicators := validate_signature_coverage inds0 func_info
    let score : Rat :=
      ((quality_indicators.filter (fun p => p.2)).length : Rat) / (quality_indicators.length : Rat)
    let missing :=
      (quality_indicators.filter (fun p => !p.2)).map (fun p => underscoreToSpace p.1)
    if is_brief then
      { quality := QualityLevel.poor, score := score,
        missing := ("comprehensive content (too brief)") :: missing,
        needs_improvement := true, indicators := quality_indicators }
    else if cfg.quality_thresholds.excellent ≤ score then
      { quality := QualityLevel.excellent, score := score, missing := missing,
        needs_improvement := false, indicators := quality_indicators }
    else if cfg.quality_thresholds.good ≤ score then
      { quality := QualityLevel.good, score := score, missing := missing,
        needs_improvement := true, indicators := quality_indicators }
    else if cfg.quality_thresholds.basic ≤ score then
      { quality := QualityLevel.basic, score := score, missing := missing,
        needs_improvement := true, indicators := quality_indicators }
    else
      { quality := QualityLevel.poor, score := score, missing := missing,
        needs_improvement := true, indicators := quality_indicators }

/-- Embedding of PythonAnalyzer._calculate_visibility_score. -/
def calculate_visibility_score (func_info : FunctionInfo) : Nat :=
  if func_info.is_private then 0 else 3

/-- Embedding of PythonAnalyzer._calculate_complexity_score. -/
def calculate_complexity_score (cfg : AnalysisConfig) (func_info : FunctionInfo) : Nat :=
  if cfg.thresholds.complexity_high < func_info.complexity then 2
  else if cfg.thresholds.complexity_medium < func_info.complexity then 1
  else 0

/-- Embedding of PythonAnalyzer._calculate_signature_score. -/
def calculate_signature_score (cfg : AnalysisConfig) (func_info : FunctionInfo) : Nat :=
  let param_count := (func_info.args.filter (fun a => !(a.name == ("self").toList))).length
  (if 0 < param_count then min param_count cfg.thresholds.max_param_priority_contribution else 0)
    + (if truthyRet func_info.returns then 2 else 0)

/-- Embedding of PythonAnalyzer._calculate_quality_gap_score.  The three
cutoffs 0.3, 0.6, 0.8 are literals in the source, not configuration. -/
def calculate_quality_gap_score (quality_assessment : QualityAssessment) : Nat :=
  if quality_assessment.score < 3/10 then 3
  else if quality_assessment.score < 3/5 then 2
  else if quality_assessment.score < 4/5 then 1
  else 0

/-- Embedding of PythonAnalyzer.calculate_priority. -/
def calculate_priority (cfg : AnalysisConfig) (func_info : FunctionInfo)
    (quality_assessment : QualityAssessment) : Nat :=
  calculate_visibility_score func_info
    + calculate_complexity_score cfg func_info
    + calculate_signature_score cfg func_info
    + calculate_quality_gap_score quality_assessment

/-- One entry of an ast.arguments node: the identifier together with the
rendered (ast.unparse) text of its annotation when present. -/
structure PyArg where
  arg : Str
  ann : Option Str := none
deriving DecidableEq

/-- The fields of an ast.arguments node that the extractor can observe.
Default expressions are carried as their rendered text. -/
structure PyArguments where
  posonlyargs : List PyArg := []
  args : List PyArg := []
  kwonlyargs : List PyArg := []
  vararg : Option PyArg := none
  kwarg : Option PyArg := none
  defaults : List Str := []
  kw_defaults : List (Option Str) := []
deriving DecidableEq

/-- A function definition node as seen by the extractor: name, line,
arguments, rendered return expression, rendered decorator names, the
docstring reported by ast.get_docstring (empty when absent), and the
number of branching constructs ast.walk finds in the subtree (the
complexity estimate of the source is one plus this count). -/
structure PyFunctionDef where
  name : Str
  lineno : Nat := 1
  args : PyArguments := {}
  returns : Option Str := none
  decorator_list : List Str := []
  docstring : Str := []
  complexityCount : Nat := 0
deriving DecidableEq

/-- The default-assignment loop of _extract_function_info: entry i of the
defaults list goes to argument index (number of captured args) minus
(number of defaults) plus i, skipped when that index is out of range. -/
def applyDefaultsFrom (shift : Int) (defaults : List Str) :
    Nat → List ArgInfo → List ArgInfo
  | _, [] => []
  | idx, a :: rest =>
    (if shift ≤ (idx : Int) then
       match defaults.get? ((idx : Int) - shift).toNat with
       | some d => { a with default := some d }
       | none => a
     else a) :: applyDefaultsFrom shift defaults (idx + 1) rest

def applyDefaults (args : List ArgInfo) (defaults : List Str) : List ArgInfo :=
  applyDefaultsFrom ((args.length : Int) - (defaults.length : Int)) defaults 0 args

/-- Embedding of PythonAnalyzer._extract_function_info.  Only the
node.args.args list is iterated; keyword-only parameters, the star
parameter and the double-star parameter are never read. -/
def extract_function_info (node : PyFunctionDef) : FunctionInfo :=
  let args0 : List ArgInfo :=
    node.args.args.map (fun a => { name := a.arg, typeAnn := a.ann, default := none })
  let args1 := applyDefaults args0 node.args.defaults
  { name := node.name, line := node.lineno,
    complexity := 1 + node.complexityCount,
    is_private := ("_").toList.isPrefixOf node.name,
    is_test := is_test_function node.name,
    args := args1, returns := node.returns,
    decorators := node.decorator_list,
    current_docstring := node.docstring }

/-- A Python value passed in the file_path position: a string, or a value
of some other type (carrying the name of that type). -/
inductive PyVal where
  | str (s : Str)
  | nonStr (tyName : String)
deriving DecidableEq

def pyvalStr : PyVal → Str
  | PyVal.str s => s
  | PyVal.nonStr _ => []

/-- Embedding of PythonAnalyzer._validate_file_path.  The Bool carried on
the success side records whether the path-traversal warning was logged;
the source only writes it to the logger and continues. -/
def validate_file_path (cfg : AnalysisConfig) (file_path : PyVal) :
    Except String Bool :=
  match file_path with
  | PyVal.nonStr ty =>
    Except.error (("file_path must be string, got ") ++ ty)
  | PyVal.str p =>
    if cfg.max_file_path_length < p.length then
      Except.error (("file_path too long (max ") ++ toString cfg.max_file_path_length ++ (")"))
    else if '\x00' ∈ p then
      Except.error (("file_path contains null byte"))
    else
      Except.ok (strContains (("../").toList) p || strContains (("..\\").toList) p)

/-- Embedding of PythonAnalyzer._validate_code_security: none means the
input passed, some e is the single-element error list returned. -/
def validate_code_security (cfg : AnalysisConfig) (code : Str)
    (file_path : PyVal) : Option String :=
  if cfg.max_code_size < code.length then
    some (("Code too large (max ") ++ toString (cfg.max_code_size / 1024) ++ ("KB)"))
  else
    match validate_file_path cfg file_path with
    | Except.error e => some e
    | Except.ok _ => none

/-- What ast.parse does on a given source: the walked function nodes on
success, a syntax error, or a timeout of the alarm guard. -/
inductive ParseResult where
  | success (funcs : List PyFunctionDef)
  | syntaxError (msg : String)
  | timeout
deriving DecidableEq

/-- One per-function result dict of the analyzer. -/
structure FunctionResult where
  function_name : Str
  line_number : Nat
  file_path : Str
  current_docstring : Str
  quality_assessment : QualityAssessment
  function_info : FunctionInfo
  priority : Nat
deriving DecidableEq

/-- An element of the list PythonAnalyzer.analyze returns: a real result
dict or the single-key error dict. -/
inductive AnalyzeItem where
  | ok (r : FunctionResult)
  | err (msg : String)
deriving DecidableEq

/-- Embedding of PythonAnalyzer._extract_functions_needing_improvement:
assess every discovered function and keep those needing improvement. -/
def extract_functions_needing_improvement (cfg : AnalysisConfig)
    (funcs : List PyFunctionDef) (file_path : Str) : List FunctionResult :=
  funcs.filterMap (fun node =>
    let func_info := extract_function_info node
    let docstring := node.docstring
    let quality := assess_docstring_quality cfg docstring func_info.name func_info
    if quality.needs_improvement then
      some { function_name := func_info.name, line_number := func_info.line,
             file_path := file_path, current_docstring := docstring,
             quality_assessment := quality, function_info := func_info,
             priority := calculate_priority cfg func_info quality }
    else none)

/-- Stable insertion used to model Python sorted with reverse=True:
an element moves past entries of strictly lower priority only, so equal
priorities keep discovery order. -/
def insertByPriority (x : FunctionResult) : List FunctionResult → List FunctionResult
  | [] => [x]
  | y :: rest =>
    if y.priority ≤ x.priority then x :: y :: rest else y :: insertByPriority x rest

/-- Embedding of PythonAnalyzer._sort_by_priority. -/
def sort_by_priority (funcs : List FunctionResult) : List FunctionResult :=
  funcs.foldr insertByPriority []

/-- Embedding of PythonAnalyzer.analyze.  The collaborators that live in
the Python standard library are abstracted as inputs: parse is the
outcome of ast.parse under the alarm guard, depth_error the outcome of
_validate_ast_depth on the parsed tree, and unexpected a message of an
exception escaping the remaining body, which the boundary guard wraps. -/
def analyze (cfg : AnalysisConfig) (code : Str) (file_path : PyVal)
    (parse : ParseResult) (depth_error : Option String)
    (unexpected : Option String) : List AnalyzeItem :=
  match validate_code_security cfg code file_path with
  | some e => [AnalyzeItem.err e]
  | none =>
    match parse with
    | ParseResult.timeout =>
      [AnalyzeItem.err (("Parse timeout after ") ++ toString cfg.ast_parse_timeout ++ ("s"))]
    | ParseResult.syntaxError m =>
      [AnalyzeItem.err (("Syntax error: ") ++ m)]
    | ParseResult.success funcs =>
      match depth_error with
      | some m => [AnalyzeItem.err m]
      | none =>
        match unexpected with
        | some m => [AnalyzeItem.err (("Failed to analyze code: ") ++ m)]
        | none =>
          (sort_by_priority
            (extract_functions_needing_improvement cfg funcs (pyvalStr file_path))).map
            AnalyzeItem.ok

/-- The SIGALRM state the process carries across calls: whether an alarm
is scheduled, and whether the SIGALRM handler is still the custom parse
handler instead of the one saved before the call. -/
structure TimerState where
  armed : Bool
  handlerCustom : Bool
deriving DecidableEq

/-- How the ast.parse call inside the guard ends. -/
inductive ParseEvent where
  | success
  | syntaxError
  | timeoutFired
deriving DecidableEq

/-- Embedding of PythonAnalyzer._parse_with_timeout as a transformer of
the SIGALRM state, following the source line by line: the handler is
installed and the alarm armed before parsing (when the platform has
signals); the cancellation block sits after the parse call inside the
try, so it runs only when the parse returns normally.  A SyntaxError
transfers control to the except clause directly; a fired alarm has
consumed the schedule but the except clause for TimeoutError also
bypasses the handler restore. -/
def parse_with_timeout (signalAvailable : Bool) (ev : ParseEvent)
    (st : TimerState) : (Except String Unit) × TimerState :=
  let st1 := if signalAvailable then { armed := true, handlerCustom := true } else st
  match ev with
  | ParseEvent.success =>
    let st2 := if signalAvailable then { armed := false, handlerCustom := false } else st1
    (Except.ok (), st2)
  | ParseEvent.syntaxError =>
    (Except.error (("Syntax error")), st1)
  | ParseEvent.timeoutFired =>
    (Except.error (("Parse timeout")), { st1 with armed := false })

/-- The concrete docstring used by the counterexamples below. -/
def cexDoc : Str :=
  ("given: the Setup of a fresh analyzer over one sample stored in memory\n\nWhen the assessment runs over that sample it verifies each heuristic\n\nThen the outcome numbers match what was expected and Ensures that totals add up").toList

/-- A function node named test_x carrying the counterexample docstring. -/
def cexNode : PyFunctionDef :=
  { name := ("test_x").toList, docstring := cexDoc }

/-- A minimal descriptor used to instantiate hypotheses at a concrete
input. -/
def emptyInfo : FunctionInfo :=
  { name := [], line := 1, complexity := 1, is_private := false,
    is_test := false, args := [], returns := none }

/-! ## Helper lemmas -/

lemma setInd_lookup_false (key : String) :
    ∀ inds : List (String × Bool), lookupInd key inds = some false →
      setInd key false inds = inds := by
  intro inds
  induction inds with
  | nil => intro h; simp [lookupInd] at h
  | cons p rest ih =>
    intro h
    by_cases hp : p.1 == key
    · have hval : p.2 = false := by
        simp [lookupInd, List.find?, hp] at h
        exact h
      simp [setInd, hp, ← hval]
    · have htail : lookupInd key rest = some false := by
        simpa [lookupInd, List.find?, hp] using h
      simp [setInd, hp, ih htail]

lemma coverage_step (b : Bool) (key : String) (inds : List (String × Bool)) :
    (if b && !((lookupInd key inds).getD true) then setInd key false inds else inds) = inds := by
  split
  · next h =>
    have hfalse : (lookupInd key inds).getD true = false := by
      cases hg : (lookupInd key inds).getD true <;> simp [hg] at h ⊢
    have hsome : lookupInd key inds = some false := by
      cases hl : lookupInd key inds with
      | none => rw [hl] at hfalse; simp at hfalse
      | some v => rw [hl] at hfalse; simp at hfalse; rw [hfalse]
    exact setInd_lookup_false key inds hsome
  · rfl

/-- The signature-coverage pass never changes the indicator list: each of
its two writes fires only when the indicator is already present with
value false and writes false back. -/
lemma validate_signature_coverage_eq (inds : List (String × Bool)) (info : FunctionInfo) :
    validate_signature_coverage inds info = inds := by
  unfold validate_signature_coverage
  rw [coverage_step, coverage_step]

lemma calculate_quality_indicators_length (cfg : AnalysisConfig) (ds : Str)
    (info : FunctionInfo) (b terse brief : Bool) :
    (calculate_quality_indicators cfg ds info b terse brief).length = if b then 7 else 8 := by
  cases b <;>
    simp [calculate_quality_indicators, check_brief_and_detailed,
      check_documentation_sections, check_context_and_details,
      check_test_specific_indicators]

/-- The indicator computation ignores its descriptor parameter (the
source marks it unused with a leading underscore). -/
lemma calculate_quality_indicators_info (cfg : AnalysisConfig) (ds : Str)
    (i1 i2 : FunctionInfo) :
    calculate_quality_indicators cfg ds i1 = calculate_quality_indicators cfg ds i2 := rfl

/-- The assessor reads its name argument only through the test-name
classifier, and its descriptor argument only through the
signature-coverage pass, which is the identity. -/
lemma assess_depends (cfg : AnalysisConfig) (ds n1 n2 : Str) (i1 i2 : FunctionInfo)
    (hn : is_test_function n1 = is_test_function n2) :
    assess_docstring_quality cfg ds n1 i1 = assess_docstring_quality cfg ds n2 i2 := by
  unfold assess_docstring_quality
  by_cases hc : ds = [] ∨ (pyStrip ds).length < cfg.min_docstring_length
  · rw [if_pos hc, if_pos hc]
  · rw [if_neg hc, if_neg hc]
    simp only [validate_signature_coverage_eq, hn,
      calculate_quality_indicators_info cfg ds i1 i2]

lemma is_test_underscore (name : Str) : is_test_function ('_' :: name) = false := rfl

/-- Short name for the indicator list the assessor works with past the
early exit (after the identity coverage pass). -/
def assessInds (cfg : AnalysisConfig) (ds name : Str) (info : FunctionInfo) :
    List (String × Bool) :=
  calculate_quality_indicators cfg ds info (is_test_function name)
    (detect_terse cfg ds) (is_brief_one_liner cfg ds (detect_terse cfg ds))

lemma assess_indicators_eq (cfg : AnalysisConfig) (ds name : Str) (info : FunctionInfo)
    (h : ¬(ds = [] ∨ (pyStrip ds).length < cfg.min_docstring_length)) :
    (assess_docstring_quality cfg ds name info).indicators = assessInds cfg ds name info := by
  unfold assess_docstring_quality assessInds
  rw [if_neg h]
  simp only [validate_signature_coverage_eq]
  split
  · rfl
  · split
    · rfl
    · split
      · rfl
      · split
        · rfl
        · rfl

lemma assess_score_eq (cfg : AnalysisConfig) (ds name : Str) (info : FunctionInfo)
    (h : ¬(ds = [] ∨ (pyStrip ds).length < cfg.min_docstring_length)) :
    (assess_docstring_quality cfg ds name info).score =
      (((assessInds cfg ds name info).filter (fun p => p.2)).length : Rat) /
        ((assessInds cfg ds name info).length : Rat) := by
  unfold assess_docstring_quality assessInds
  rw [if_neg h]
  simp only [validate_signature_coverage_eq]
  split
  · rfl
  · split
    · rfl
    · split
      · rfl
      · split
        · rfl
        · rfl

/-! ## C1 -/

/-- C1: when the documentation is empty or its trimmed length is below
min_docstring_length, the assessor returns exactly score 0, tier POOR,
missing = [docstring], needs_improvement = true and an empty indicator
set. -/
theorem assess_early_exit (cfg : AnalysisConfig) (docstring func_name : Str)
    (func_info : FunctionInfo)
    (h : docstring = [] ∨ (pyStrip docstring).length < cfg.min_docstring_length) :
    assess_docstring_quality cfg docstring func_name func_info =
      { quality := QualityLevel.poor, score := 0, missing := [("docstring")],
        needs_improvement := true, indicators := [] } := by
  unfold assess_docstring_quality
  rw [if_pos h]

theorem assess_early_exit_witness :
    assess_docstring_quality DEFAULT_CONFIG [] [] emptyInfo =
      { quality := QualityLevel.poor, score := 0, missing := [("docstring")],
        needs_improvement := true, indicators := [] } :=
  assess_early_exit DEFAULT_CONFIG [] [] emptyInfo (Or.inl rfl)

/-! ## C9 -/

/-- C9: the signature-coverage correction pass returns an indicator set
equal to its input, so the score computed after the pass equals the score
computed without it. -/
theorem signature_coverage_identity (inds : List (String × Bool)) (info : FunctionInfo) :
    validate_signature_coverage inds info = inds ∧
      (((validate_signature_coverage inds info).filter (fun p => p.2)).length : Rat) /
          ((validate_signature_coverage inds info).length : Rat) =
        ((inds.filter (fun p => p.2)).length : Rat) / ((inds.length : Nat) : Rat) :=
  ⟨validate_signature_coverage_eq inds info, by rw [validate_signature_coverage_eq]⟩

/-! ## C2 -/

/-- C2 counterexample: a test-function assessment that passes the early
exit carries 7 indicators, not 11. -/
theorem indicator_count_cex :
    ¬((assess_docstring_quality DEFAULT_CONFIG cexDoc (("test_x").toList)
          (extract_function_info cexNode)).indicators.length = 11) ∧
      is_test_function (("test_x").toList) = true ∧
      ¬(cexDoc = [] ∨ (pyStrip cexDoc).length < DEFAULT_CONFIG.min_docstring_length) := by
  have hne : ¬(cexDoc = [] ∨ (pyStrip cexDoc).length < DEFAULT_CONFIG.min_docstring_length) := by
    decide
  refine ⟨?_, rfl, hne⟩
  rw [assess_indicators_eq DEFAULT_CONFIG cexDoc (("test_x").toList)
    (extract_function_info cexNode) hne]
  unfold assessInds
  rw [calculate_quality_indicators_length]
  decide

/-- C2 amended: past the early exit the indicator set has exactly 8
entries for ordinary functions and exactly 7 for test functions (the
test set substitutes five Arrange/Act/Assert-oriented indicators for the
four section indicators and the two context/detail indicators). -/
theorem indicator_count (cfg : AnalysisConfig) (ds name : Str) (info : FunctionInfo)
    (h : ¬(ds = [] ∨ (pyStrip ds).length < cfg.min_docstring_length)) :
    (assess_docstring_quality cfg ds name info).indicators.length =
      if is_test_function name then 7 else 8 := by
  rw [assess_indicators_eq cfg ds name info h]
  unfold assessInds
  rw [calculate_quality_indicators_length]

theorem indicator_count_witness :
    ((assess_docstring_quality DEFAULT_CONFIG cexDoc (("process").toList)
        emptyInfo).indicators.length = if is_test_function (("process").toList) then 7 else 8) :=
  indicator_count DEFAULT_CONFIG cexDoc (("process").toList) emptyInfo (by decide)

/-! ## C3 -/

/-- C3: past the early exit the score is the fraction of true indicators
and lies in [0,1]; a brief one-liner forces tier POOR with the too-brief
item prepended to missing and needs_improvement true, regardless of the
score; otherwise the tier follows the three configured cutoffs in
priority order and needs_improvement is false exactly on the excellent
tier. -/
theorem assess_score_and_tier (cfg : AnalysisConfig) (ds name : Str) (info : FunctionInfo)
    (qa : QualityAssessment)
    (h : ¬(ds = [] ∨ (pyStrip ds).length < cfg.min_docstring_length))
    (hqa : qa = assess_docstring_quality cfg ds name info) :
    (qa.score = ((qa.indicators.filter (fun p => p.2)).length : Rat) /
        ((qa.indicators.length : Nat) : Rat)) ∧
      0 ≤ qa.score ∧ qa.score ≤ 1 ∧
      (if is_brief_one_liner cfg ds (detect_terse cfg ds) = true then
        qa.quality = QualityLevel.poor ∧ qa.needs_improvement = true ∧
          ∃ rest, qa.missing = ("comprehensive content (too brief)") :: rest
       else
        qa.quality = (if cfg.quality_thresholds.excellent ≤ qa.score then QualityLevel.excellent
          else if cfg.quality_thresholds.good ≤ qa.score then QualityLevel.good
          else if cfg.quality_thresholds.basic ≤ qa.score then QualityLevel.basic
          else QualityLevel.poor) ∧
          (qa.needs_improvement = false ↔ qa.quality = QualityLevel.excellent)) := by
  subst hqa
  refine ⟨?_, ?_, ?_, ?_⟩
  · rw [assess_score_eq cfg ds name info h, assess_indicators_eq cfg ds name info h]
  · rw [assess_score_eq cfg ds name info h]
    exact div_nonneg (Nat.cast_nonneg _) (Nat.cast_nonneg _)
  · rw [assess_score_eq cfg ds name info h]
    exact div_le_one_of_le₀ (by exact_mod_cast List.length_filter_le _ _) (Nat.cast_nonneg _)
  · unfold assess_docstring_quality
    rw [if_neg h]
    simp only [validate_signature_coverage_eq]
    by_cases hb : is_brief_one_liner cfg ds (detect_terse cfg ds) = true
    · simp only [if_pos hb]
      exact ⟨trivial, trivial, _, rfl⟩
    · simp only [if_neg hb]
      split
      · next hex => simp [hex]
      · next hex =>
        split
        · next hg => simp [hex, hg]
        · next hg =>
          split
          · next hba => simp [hex, hg, hba]
          · next hba => simp [hex, hg, hba]

theorem assess_score_and_tier_witness :
    ((assess_docstring_quality DEFAULT_CONFIG cexDoc (("process").toList) emptyInfo).score =
        (((assess_docstring_quality DEFAULT_CONFIG cexDoc (("process").toList)
              emptyInfo).indicators.filter (fun p => p.2)).length : Rat) /
          (((assess_docstring_quality DEFAULT_CONFIG cexDoc (("process").toList)
              emptyInfo).indicators.length : Nat) : Rat)) ∧
      0 ≤ (assess_docstring_quality DEFAULT_CONFIG cexDoc (("process").toList) emptyInfo).score ∧
      (assess_docstring_quality DEFAULT_CONFIG cexDoc (("process").toList) emptyInfo).score ≤ 1 ∧
      (if is_brief_one_liner DEFAULT_CONFIG cexDoc (detect_terse DEFAULT_CONFIG cexDoc) = true then
        (assess_docstring_quality DEFAULT_CONFIG cexDoc (("process").toList) emptyInfo).quality =
            QualityLevel.poor ∧
          (assess_docstring_quality DEFAULT_CONFIG cexDoc (("process").toList)
              emptyInfo).needs_improvement = true ∧
          ∃ rest, (assess_docstring_quality DEFAULT_CONFIG cexDoc (("process").toList)
              emptyInfo).missing = ("comprehensive content (too brief)") :: rest
       else
        (assess_docstring_quality DEFAULT_CONFIG cexDoc (("process").toList) emptyInfo).quality =
            (if DEFAULT_CONFIG.quality_thresholds.excellent ≤
                (assess_docstring_quality DEFAULT_CONFIG cexDoc (("process").toList) emptyInfo).score
             then QualityLevel.excellent
             else if DEFAULT_CONFIG.quality_thresholds.good ≤
                (assess_docstring_quality DEFAULT_CONFIG cexDoc (("process").toList) emptyInfo).score
             then QualityLevel.good
             else if DEFAULT_CONFIG.quality_thresholds.basic ≤
                (assess_docstring_quality DEFAULT_CONFIG cexDoc (("process").toList) emptyInfo).score
             then QualityLevel.basic
             else QualityLevel.poor) ∧
          ((assess_docstring_quality DEFAULT_CONFIG cexDoc (("process").toList)
              emptyInfo).needs_improvement = false ↔
            (assess_docstring_quality DEFAULT_CONFIG cexDoc (("process").toList) emptyInfo).quality =
              QualityLevel.excellent)) :=
  assess_score_and_tier DEFAULT_CONFIG cexDoc (("process").toList) emptyInfo _ (by decide) rfl

/-! ## C4 -/

/-- The visibility contribution as the claim words it. -/
def spec_visibility (info : FunctionInfo) : Nat := if info.is_private then 0 else 3

/-- The complexity contribution as the claim words it. -/
def spec_complexity (cfg : AnalysisConfig) (info : FunctionInfo) : Nat :=
  if cfg.thresholds.complexity_high < info.complexity then 2
  else if cfg.thresholds.complexity_medium < info.complexity then 1
  else 0

/-- The signature contribution as the claim words it: the capped count of
parameters other than self, plus 2 when a return type is present and is
not the literal None. -/
def spec_signature (cfg : AnalysisConfig) (info : FunctionInfo) : Nat :=
  min ((info.args.filter (fun a => !(a.name == ("self").toList))).length)
      cfg.thresholds.max_param_priority_contribution
    + (if info.returns.isSome && !(info.returns == some (("None").toList)) then 2 else 0)

/-- The quality-gap contribution as the claim words it. -/
def spec_quality_gap (qa : QualityAssessment) : Nat :=
  if qa.score < 3/10 then 3
  else if qa.score < 3/5 then 2
  else if qa.score < 4/5 then 1
  else 0

/-- C4: the priority is the sum of the four independent contributions,
each as the claim describes them.  The hypothesis excludes the empty
rendered return string, which ast.unparse never produces. -/
theorem priority_factor_sum (cfg : AnalysisConfig) (info : FunctionInfo)
    (qa : QualityAssessment) (hr : info.returns ≠ some []) :
    calculate_priority cfg info qa =
      spec_visibility info + spec_complexity cfg info + spec_signature cfg info +
        spec_quality_gap qa := by
  have h1 : (if 0 < (info.args.filter (fun a => !(a.name == ("self").toList))).length then
      min ((info.args.filter (fun a => !(a.name == ("self").toList))).length)
        cfg.thresholds.max_param_priority_contribution else 0) =
      min ((info.args.filter (fun a => !(a.name == ("self").toList))).length)
        cfg.thresholds.max_param_priority_contribution := by
    split
    · rfl
    · next hp =>
      have hz : (info.args.filter (fun a => !(a.name == ("self").toList))).length = 0 := by
        omega
      rw [hz, Nat.zero_min]
  have h2 : (if truthyRet info.returns then 2 else 0) =
      (if info.returns.isSome && !(info.returns == some (("None").toList)) then 2 else 0) := by
    cases hrv : info.returns with
    | none => rfl
    | some s =>
      cases s with
      | nil => exact absurd hrv hr
      | cons c cs => rfl
  have hsig : calculate_signature_score cfg info = spec_signature cfg info := by
    unfold calculate_signature_score spec_signature
    dsimp only
    rw [h1, h2]
  unfold calculate_priority
  rw [hsig]
  rfl

/-- Concrete descriptor for witnesses. -/
def wInfo : FunctionInfo :=
  { name := ("f").toList, line := 1, complexity := 7, is_private := false,
    is_test := false, args := [{ name := ("x").toList }],
    returns := some (("int").toList) }

/-- Concrete assessment for witnesses. -/
def wQa : QualityAssessment :=
  { quality := QualityLevel.poor, score := 0, missing := [],
    needs_improvement := true, indicators := [] }

theorem priority_factor_sum_witness :
    calculate_priority DEFAULT_CONFIG wInfo wQa =
      spec_visibility wInfo + spec_complexity DEFAULT_CONFIG wInfo +
        spec_signature DEFAULT_CONFIG wInfo + spec_quality_gap wQa :=
  priority_factor_sum DEFAULT_CONFIG wInfo wQa (by decide)

/-! ## C5 -/

/-- C5: every analyze call returns either a list of real results or a
single-element error list, never a mixture; each failure mode (oversized
source, non-string identifier, syntax error, parse timeout, depth guard,
escaped exception) produces the single-element error shape. -/
theorem analyze_result_shape (cfg : AnalysisConfig) (code : Str) (fp : PyVal)
    (parse : ParseResult) (depth_error unexpected : Option String) :
    ((∃ m, analyze cfg code fp parse depth_error unexpected = [AnalyzeItem.err m]) ∨
      (∃ rs : List FunctionResult,
        analyze cfg code fp parse depth_error unexpected = rs.map AnalyzeItem.ok)) ∧
      (∀ m, ∃ m2, analyze cfg code fp (ParseResult.syntaxError m) depth_error unexpected =
        [AnalyzeItem.err m2]) ∧
      (∃ m2, analyze cfg code fp ParseResult.timeout depth_error unexpected =
        [AnalyzeItem.err m2]) ∧
      (∀ dm, ∃ m2, analyze cfg code fp parse (some dm) unexpected = [AnalyzeItem.err m2]) ∧
      (∀ em, ∃ m2, analyze cfg code fp parse depth_error (some em) = [AnalyzeItem.err m2]) ∧
      (∀ ty, ∃ m2, analyze cfg code (PyVal.nonStr ty) parse depth_error unexpected =
        [AnalyzeItem.err m2]) ∧
      (∃ m2, analyze cfg (code ++ List.replicate (cfg.max_code_size + 1) ' ') fp parse
          depth_error unexpected = [AnalyzeItem.err m2]) := by
  refine ⟨?_, ?_, ?_, ?_, ?_, ?_, ?_⟩
  · unfold analyze
    cases hsec : validate_code_security cfg code fp with
    | some e => exact Or.inl ⟨_, rfl⟩
    | none =>
      cases parse with
      | timeout => exact Or.inl ⟨_, rfl⟩
      | syntaxError m => exact Or.inl ⟨_, rfl⟩
      | success funcs =>
        cases depth_error with
        | some dm => exact Or.inl ⟨_, rfl⟩
        | none =>
          cases unexpected with
          | some em => exact Or.inl ⟨_, rfl⟩
          | none => exact Or.inr ⟨_, rfl⟩
  · intro m
    unfold analyze
    cases hsec : validate_code_security cfg code fp with
    | some e => exact ⟨_, rfl⟩
    | none => exact ⟨_, rfl⟩
  · unfold analyze
    cases hsec : validate_code_security cfg code fp with
    | some e => exact ⟨_, rfl⟩
    | none => exact ⟨_, rfl⟩
  · intro dm
    unfold analyze
    cases hsec : validate_code_security cfg code fp with
    | some e => exact ⟨_, rfl⟩
    | none =>
      cases parse with
      | timeout => exact ⟨_, rfl⟩
      | syntaxError m => exact ⟨_, rfl⟩
      | success funcs => exact ⟨_, rfl⟩
  · intro em
    unfold analyze
    cases hsec : validate_code_security cfg code fp with
    | some e => exact ⟨_, rfl⟩
    | none =>
      cases parse with
      | timeout => exact ⟨_, rfl⟩
      | syntaxError m => exact ⟨_, rfl⟩
      | success funcs =>
        cases depth_error with
        | some dm => exact ⟨_, rfl⟩
        | none => exact ⟨_, rfl⟩
  · intro ty
    unfold analyze validate_code_security validate_file_path
    by_cases hsize : cfg.max_code_size < code.length
    · rw [if_pos hsize]; exact ⟨_, rfl⟩
    · rw [if_neg hsize]; exact ⟨_, rfl⟩
  · unfold analyze validate_code_security
    rw [List.length_append, List.length_replicate, if_pos (by omega)]
    exact ⟨_, rfl⟩

/-! ## C6 -/

/-- C6 is violated by the code: when ast.parse raises a SyntaxError, the
cancellation block after the parse call is skipped, so the alarm armed
before parsing is still armed (with the custom handler installed) when
the call returns its error value. -/
theorem parse_alarm_leak :
    (parse_with_timeout true ParseEvent.syntaxError
        { armed := false, handlerCustom := false }).2 =
      { armed := true, handlerCustom := true } := rfl

/-! ## C7 -/

/-- C7 counterexample: for the node named test_x with the counterexample
docstring, prepending an underscore flips the test classification, the
quality gap rises from 0 to 3 while visibility falls from 3 to 0, and
the two priorities tie, so the public priority does not strictly exceed
the private one. -/
theorem priority_underscore_cex :
    (extract_function_info cexNode).is_private = false ∧
      (extract_function_info { cexNode with name := '_' :: cexNode.name }).is_private = true ∧
      ¬(calculate_priority DEFAULT_CONFIG
            (extract_function_info { cexNode with name := '_' :: cexNode.name })
            (assess_docstring_quality DEFAULT_CONFIG cexNode.docstring ('_' :: cexNode.name)
              (extract_function_info { cexNode with name := '_' :: cexNode.name })) <
          calculate_priority DEFAULT_CONFIG (extract_function_info cexNode)
            (assess_docstring_quality DEFAULT_CONFIG cexNode.docstring cexNode.name
              (extract_function_info cexNode))) := by
  refine ⟨rfl, rfl, ?_⟩
  have hne : ¬(cexNode.docstring = [] ∨
      (pyStrip cexNode.docstring).length < DEFAULT_CONFIG.min_docstring_length) := by
    decide
  have hsPub := assess_score_eq DEFAULT_CONFIG cexNode.docstring cexNode.name
    (extract_function_info cexNode) hne
  have hsPriv := assess_score_eq DEFAULT_CONFIG cexNode.docstring ('_' :: cexNode.name)
    (extract_function_info { cexNode with name := '_' :: cexNode.name }) hne
  rw [show ((assessInds DEFAULT_CONFIG cexNode.docstring cexNode.name
        (extract_function_info cexNode)).filter (fun p => p.2)).length = 6 from by decide,
    show (assessInds DEFAULT_CONFIG cexNode.docstring cexNode.name
        (extract_function_info cexNode)).length = 7 from by decide] at hsPub
  rw [show ((assessInds DEFAULT_CONFIG cexNode.docstring ('_' :: cexNode.name)
        (extract_function_info { cexNode with name := '_' :: cexNode.name })).filter
          (fun p => p.2)).length = 2 from by decide,
    show (assessInds DEFAULT_CONFIG cexNode.docstring ('_' :: cexNode.name)
        (extract_function_info { cexNode with name := '_' :: cexNode.name })).length = 8
      from by decide] at hsPriv
  have hgPub : calculate_quality_gap_score
      (assess_docstring_quality DEFAULT_CONFIG cexNode.docstring cexNode.name
        (extract_function_info cexNode)) = 0 := by
    unfold calculate_quality_gap_score
    rw [hsPub]
    norm_num
  have hgPriv : calculate_quality_gap_score
      (assess_docstring_quality DEFAULT_CONFIG cexNode.docstring ('_' :: cexNode.name)
        (extract_function_info { cexNode with name := '_' :: cexNode.name })) = 3 := by
    unfold calculate_quality_gap_score
    rw [hsPriv]
    norm_num
  unfold calculate_priority
  rw [hgPub, hgPriv,
    show calculate_visibility_score (extract_function_info cexNode) = 3 from by decide,
    show calculate_visibility_score
      (extract_function_info { cexNode with name := '_' :: cexNode.name }) = 0 from by decide,
    show calculate_complexity_score DEFAULT_CONFIG (extract_function_info cexNode) = 0
      from by decide,
    show calculate_complexity_score DEFAULT_CONFIG
      (extract_function_info { cexNode with name := '_' :: cexNode.name }) = 0 from by decide,
    show calculate_signature_score DEFAULT_CONFIG (extract_function_info cexNode) = 0
      from by decide,
    show calculate_signature_score DEFAULT_CONFIG
      (extract_function_info { cexNode with name := '_' :: cexNode.name }) = 0 from by decide]
  omega

/-- C7 amended: for two extracted functions identical except for a
leading underscore prepended to the name, where the public name is
genuinely public and does not carry the test prefix (so the test
classification of the two names agrees), the public priority strictly
exceeds the private one. -/
theorem priority_public_gt_private (cfg : AnalysisConfig) (node : PyFunctionDef)
    (hpub : ("_").toList.isPrefixOf node.name = false)
    (htest : ("test_").toList.isPrefixOf node.name = false) :
    calculate_priority cfg (extract_function_info { node with name := '_' :: node.name })
        (assess_docstring_quality cfg node.docstring ('_' :: node.name)
          (extract_function_info { node with name := '_' :: node.name })) <
      calculate_priority cfg (extract_function_info node)
        (assess_docstring_quality cfg node.docstring node.name
          (extract_function_info node)) := by
  have hq : assess_docstring_quality cfg node.docstring ('_' :: node.name)
        (extract_function_info { node with name := '_' :: node.name }) =
      assess_docstring_quality cfg node.docstring node.name (extract_function_info node) := by
    apply assess_depends
    rw [is_test_underscore]
    unfold is_test_function
    rw [htest]
  rw [hq]
  unfold calculate_priority
  have hvpriv : calculate_visibility_score
      (extract_function_info { node with name := '_' :: node.name }) = 0 := by
    have hp : (extract_function_info { node with name := '_' :: node.name }).is_private = true := by
      show ("_").toList.isPrefixOf ('_' :: node.name) = true
      simp [List.isPrefixOf]
    unfold calculate_visibility_score
    rw [hp]
    rfl
  have hvpub : calculate_visibility_score (extract_function_info node) = 3 := by
    have hp : (extract_function_info node).is_private = false := hpub
    unfold calculate_visibility_score
    rw [hp]
    rfl
  have hc : calculate_complexity_score cfg
        (extract_function_info { node with name := '_' :: node.name }) =
      calculate_complexity_score cfg (extract_function_info node) := rfl
  have hs : calculate_signature_score cfg
        (extract_function_info { node with name := '_' :: node.name }) =
      calculate_signature_score cfg (extract_function_info node) := rfl
  rw [hvpriv, hvpub, hc, hs]
  omega

/-- Concrete node for the C7 amended witness. -/
def wNode : PyFunctionDef := { name := ("process").toList, docstring := cexDoc }

theorem priority_public_gt_private_witness :
    calculate_priority DEFAULT_CONFIG
        (extract_function_info { wNode with name := '_' :: wNode.name })
        (assess_docstring_quality DEFAULT_CONFIG wNode.docstring ('_' :: wNode.name)
          (extract_function_info { wNode with name := '_' :: wNode.name })) <
      calculate_priority DEFAULT_CONFIG (extract_function_info wNode)
        (assess_docstring_quality DEFAULT_CONFIG wNode.docstring wNode.name
          (extract_function_info wNode)) :=
  priority_public_gt_private DEFAULT_CONFIG wNode (by decide) (by decide)

/-! ## C8 -/

/-- C8: input validation rejects exactly on oversized source, a
non-string identifier, an over-length identifier, or a null byte in the
identifier; an identifier containing a traversal pattern is only flagged
on the warning channel, validation succeeds and analysis proceeds. -/
theorem validation_reject_iff (cfg : AnalysisConfig) (code : Str) (fp : PyVal) :
    ((validate_code_security cfg code fp).isSome ↔
      (cfg.max_code_size < code.length ∨
        (match fp with
         | PyVal.nonStr _ => True
         | PyVal.str s => cfg.max_file_path_length < s.length ∨ '\x00' ∈ s))) ∧
      (∀ s : Str,
        (strContains (("../").toList) s || strContains (("..\\").toList) s) = true →
        ¬cfg.max_code_size < code.length →
        ¬cfg.max_file_path_length < s.length → ¬('\x00' ∈ s) →
        validate_code_security cfg code (PyVal.str s) = none ∧
          validate_file_path cfg (PyVal.str s) = Except.ok true) := by
  constructor
  · unfold validate_code_security validate_file_path
    by_cases hsize : cfg.max_code_size < code.length
    · simp [hsize]
    · rw [if_neg hsize]
      cases fp with
      | nonStr ty => simp [hsize]
      | str s =>
        by_cases hlen : cfg.max_file_path_length < s.length
        · simp [hsize, hlen]
        · by_cases hnull : '\x00' ∈ s
          · simp [hsize, hlen, hnull]
          · simp [hsize, hlen, hnull]
  · intro s htrav hsize hlen hnull
    constructor
    · unfold validate_code_security validate_file_path
      simp [hsize, hlen, hnull]
    · unfold validate_file_path
      simp [hlen, hnull]
      simpa using htrav

theorem validation_reject_iff_witness :
    validate_code_security DEFAULT_CONFIG [] (PyVal.str (("../x").toList)) = none ∧
      validate_file_path DEFAULT_CONFIG (PyVal.str (("../x").toList)) = Except.ok true :=
  (validation_reject_iff DEFAULT_CONFIG [] (PyVal.str (("../x").toList))).2
    (("../x").toList) (by decide) (by decide) (by decide) (by decide)

/-! ## C10 -/

lemma applyDefaultsFrom_map_name (shift : Int) (ds : List Str) :
    ∀ (i : Nat) (l : List ArgInfo),
      (applyDefaultsFrom shift ds i l).map ArgInfo.name = l.map ArgInfo.name := by
  intro i l
  induction l generalizing i with
  | nil => rfl
  | cons a rest ih =>
    simp only [applyDefaultsFrom, List.map_cons, ih]
    congr 1
    split
    · split <;> rfl
    · rfl

/-- C10: the extracted descriptor lists exactly the plain
positional-or-keyword parameters of the definition; keyword-only
parameters, the star parameter and the double-star parameter never
appear and never affect the extracted argument list, and the parameter
count feeding the signature score counts exactly the node parameters
whose name differs from self. -/
theorem extractor_plain_args (cfg : AnalysisConfig) (node : PyFunctionDef) :
    ((extract_function_info node).args.map ArgInfo.name = node.args.args.map PyArg.arg) ∧
      (∀ kws va kw kds,
        (extract_function_info
            { node with
              args := { node.args with
                kwonlyargs := kws
                vararg := va
                kwarg := kw
                kw_defaults := kds } }).args =
          (extract_function_info node).args) ∧
      calculate_signature_score cfg (extract_function_info node) =
        ((if 0 < (node.args.args.filter (fun a => !(a.arg == ("self").toList))).length then
          min ((node.args.args.filter (fun a => !(a.arg == ("self").toList))).length)
            cfg.thresholds.max_param_priority_contribution
         else 0) + (if truthyRet node.returns then 2 else 0)) := by
  have hmap : (extract_function_info node).args.map ArgInfo.name =
      node.args.args.map PyArg.arg := by
    unfold extract_function_info applyDefaults
    rw [applyDefaultsFrom_map_name, List.map_map]
    rfl
  have hcount : ((extract_function_info node).args.filter
        (fun a => !(a.name == ("self").toList))).length =
      (node.args.args.filter (fun a => !(a.arg == ("self").toList))).length := by
    rw [← List.countP_eq_length_filter, ← List.countP_eq_length_filter]
    have e1 : List.countP (fun a => !(a.name == ("self").toList))
          (extract_function_info node).args =
        List.countP (fun n => !(n == ("self").toList))
          ((extract_function_info node).args.map ArgInfo.name) := by
      rw [List.countP_map]
      rfl
    have e2 : List.countP (fun a => !(a.arg == ("self").toList)) node.args.args =
        List.countP (fun n => !(n == ("self").toList))
          (node.args.args.map PyArg.arg) := by
      rw [List.countP_map]
      rfl
    rw [e1, e2, hmap]
  refine ⟨hmap, ?_, ?_⟩
  · intro kws va kw kds
    rfl
  · simp only [calculate_signature_score]
    rw [hcount]
    rfl

end DocScope
